import Mathlib

/-!
# Verification of the AFIP WSAA ticket-acquisition client

Shallow embedding of `src/api_afip/afip_client.py` (class `AFIPServiceClient`):
the request builder (`generar_tra`), the signing step (`firmar_tra`), the
transport step (`_enviar_wsaa`), the response validator
(`_validar_respuesta_wsaa`, `_procesar_respuesta_wsaa`, `_validar_ticket`),
the SOAP error classifier (`_manejar_error_soap`), the acquisition flow
(`obtener_ticket_acceso`) and its ticket cache (`tickets_cache`).

Time is modelled as `Int` seconds (naive local wall-clock readings); the
millisecond clock reading used for `uniqueId` is a separate `Int`.  Python
`datetime` values are modelled by `PyDt` (naive or timezone-aware), and the
`TypeError` that Python raises when comparing a naive and an aware datetime is
modelled by `pyLtDt` returning `none`.
-/

namespace Afip

/-! ## Timestamp texts and Python datetime semantics -/

/-- The timezone suffix carried by a timestamp text in a WSAA response.
`noOffset` is a bare local date-time; `minus0300` is the literal suffix
`-03:00`; `otherOffset m` is any other offset (in minutes) that
`datetime.fromisoformat` accepts, e.g. `+00:00`; `unparseableTz` is a trailing
form `fromisoformat` rejects. -/
inductive TzSuffix
  | noOffset
  | minus0300
  | otherOffset (offMinutes : Int)
  | unparseableTz
  deriving DecidableEq, Repr

/-- A timestamp text: the naive local date-time denoted by its date-time part
(`base`, in seconds, no fractional part — the wire format carries none) and
its timezone suffix. -/
structure TsText where
  base : Int
  tz : TzSuffix
  deriving DecidableEq, Repr

/-- A Python `datetime`: naive, or aware with a fixed offset in minutes. -/
inductive PyDt
  | naive (t : Int)
  | aware (t : Int) (offMinutes : Int)
  deriving DecidableEq, Repr

/-- `s.replace('-03:00', '')` applied to a timestamp text (afip_client.py
lines 248-249): it deletes a literal `-03:00` suffix and leaves every other
suffix in place.  (The `.replace('T', ' ')` part only changes the separator
and is invisible in this model.) -/
def stripMinus0300 (ts : TsText) : TsText :=
  match ts.tz with
  | .minus0300 => ⟨ts.base, .noOffset⟩
  | _ => ts

/-- `datetime.fromisoformat` on a timestamp text: a bare date-time parses to a
naive datetime, an explicit offset parses to an aware datetime, and an
unparseable suffix raises `ValueError` (modelled as `none`). -/
def fromisoformat : TsText → Option PyDt
  | ⟨t, .noOffset⟩ => some (.naive t)
  | ⟨t, .minus0300⟩ => some (.aware t (-180))
  | ⟨t, .otherOffset m⟩ => some (.aware t m)
  | ⟨_, .unparseableTz⟩ => Option.none

/-- Python `<` on two datetimes.  Comparing a naive with an aware datetime
raises `TypeError`, modelled as `none`; two aware datetimes compare by their
denoted absolute instants. -/
def pyLtDt : PyDt → PyDt → Option Bool
  | .naive a, .naive b => some (decide (a < b))
  | .aware a x, .aware b y => some (decide (a - x * 60 < b - y * 60))
  | _, _ => Option.none

/-! ## The decoded ticket payload (`loginTicketResponse` XML) -/

/-- The `header` element of a decoded `loginTicketResponse`: each field is
`some` when the child element is present (with its text) and `none` when it is
absent.  (A present element whose Python `.text` is `None` is modelled as text
`""`; only `token`/`sign` are ever tested for emptiness.) -/
structure RespHeader where
  source : Option String
  destino : Option String
  uniqueId : Option String
  generationTime : Option TsText
  expirationTime : Option TsText
  deriving DecidableEq, Repr

/-- The `credentials` element: `token` and `sign` child elements, `none` when
absent. -/
structure RespCreds where
  token : Option String
  sign : Option String
  deriving DecidableEq, Repr

/-- A parsed response body as seen by `_validar_respuesta_wsaa` after
`ET.fromstring` succeeded and `loginTicketResponse` was found. -/
structure LoginTicketResponse where
  header : Option RespHeader
  credentials : Option RespCreds
  deriving DecidableEq, Repr

/-- Input shape of `_validar_respuesta_wsaa`: the XML text either fails to
parse, parses but holds no `loginTicketResponse` element, or yields one. -/
inductive WsaaXml
  | malformed
  | sinTicketResponse
  | resp (r : LoginTicketResponse)
  deriving DecidableEq, Repr

/-- One value per `return None` site of `_validar_respuesta_wsaa`
(afip_client.py lines 210-303), distinguished there by their printed
diagnostics. -/
inductive ValErr
  | malformedXml
  | noTicketResponse
  | sinHeader
  | headerIncompleto
  | errorFechas
  | ticketExpirado
  | generacionFutura
  | sinCredentials
  | sinTokenOSign
  | tokenOSignVacios
  deriving DecidableEq, Repr

/-- The dict returned by `_validar_respuesta_wsaa` on success (lines
290-296). -/
structure TicketData where
  token : String
  sign : String
  expiration : TsText
  generation : TsText
  uniqueId : String
  deriving DecidableEq, Repr

/-- `_validar_respuesta_wsaa` (afip_client.py lines 210-303).  The check
order is the source's: `loginTicketResponse` presence, `header` presence, the
five header fields, timestamp parsing (generation first), `exp_time < ahora`,
`gen_time > ahora`, `credentials` presence, `token`/`sign` presence, then
emptiness.  Any exception in the date block (parse failure, or the
`TypeError` from a naive/aware comparison) is caught and yields the single
date-error diagnostic. -/
def validarRespuestaWsaa (xml : WsaaXml) (ahora : Int) : Except ValErr TicketData :=
  match xml with
  | .malformed => .error .malformedXml
  | .sinTicketResponse => .error .noTicketResponse
  | .resp r =>
    match r.header with
    | Option.none => .error .sinHeader
    | some h =>
      match h.source, h.destino, h.uniqueId, h.generationTime, h.expirationTime with
      | some _, some _, some uid, some genTs, some expTs =>
        match fromisoformat (stripMinus0300 genTs) with
        | Option.none => .error .errorFechas
        | some genDt =>
          match fromisoformat (stripMinus0300 expTs) with
          | Option.none => .error .errorFechas
          | some expDt =>
            match pyLtDt expDt (.naive ahora) with
            | Option.none => .error .errorFechas
            | some expPast =>
              if expPast then .error .ticketExpirado
              else
                match pyLtDt (.naive ahora) genDt with
                | Option.none => .error .errorFechas
                | some genFuturo =>
                  if genFuturo then .error .generacionFutura
                  else
                    match r.credentials with
                    | Option.none => .error .sinCredentials
                    | some c =>
                      match c.token, c.sign with
                      | some tok, some sg =>
                        if tok = "" ∨ sg = "" then .error .tokenOSignVacios
                        else .ok ⟨tok, sg, expTs, genTs, uid⟩
                      | _, _ => .error .sinTokenOSign
      | _, _, _, _, _ => .error .headerIncompleto

/-! ## SOAP error classifier (`_manejar_error_soap`, lines 111-156) -/

/-- The three observable outcomes of `_manejar_error_soap`: the function
returns `False` after the "NO reintentar" diagnostic, `True` after the
"Esperar 60 segundos" diagnostic, or `True` after the "no reconocido"
diagnostic (the docstring reads the `True` return as "retry after 60
seconds"). -/
inductive SoapVerdict
  | noRetry
  | retryAfterDelay (seconds : Nat)
  | unknownRetryable
  deriving DecidableEq, Repr

/-- `errores_sin_reintento` (lines 120-130). -/
def erroresSinReintento : List String :=
  ["coe.notAuthorized", "coe.alreadyAuthenticated", "cms.cert.expired",
   "cms.cert.invalid", "cms.cert.untrusted", "xml.source.invalid",
   "xml.destination.invalid", "xml.version.notSupported", "wsn.notFound"]

/-- `errores_con_espera` (lines 137-149). -/
def erroresConEspera : List String :=
  ["cms.bad", "cms.bad.base64", "cms.cert.notFound", "cms.sign.invalid",
   "xml.bad", "xml.generationTime.invalid", "xml.expirationTime.expired",
   "xml.expirationTime.invalid", "wsn.unavailable", "wsaa.unavailable",
   "wsaa.internalError"]

/-- `_manejar_error_soap` by branch: membership in the no-retry list, else
membership in the wait-60-seconds list, else the unrecognized-code default. -/
def manejarErrorSoap (errorCode : String) : SoapVerdict :=
  if errorCode ∈ erroresSinReintento then .noRetry
  else if errorCode ∈ erroresConEspera then .retryAfterDelay 60
  else .unknownRetryable

/-- The boolean actually returned by the Python function: `False` exactly on
the no-retry branch. -/
def shouldRetry : SoapVerdict → Bool
  | .noRetry => false
  | _ => true

/-! ## Service catalog and request builder (`generar_tra`, lines 305-399) -/

/-- One entry of the `SERVICIOS` class dict (lines 16-35). -/
structure ServicioInfo where
  nombre : String
  descripcion : String
  testingUrl : String
  productionUrl : String
  deriving DecidableEq, Repr

/-- The `SERVICIOS` catalog (lines 16-35). -/
def SERVICIOS : List (String × ServicioInfo) :=
  [("wslsp",
    ⟨"Web Service de Liquidación Sector Pecuario",
     "Liquidación y facturación sector pecuario",
     "https://wswhomo.afip.gov.ar/wslsp/LspService",
     "https://serviciosjava.afip.gob.ar/wslsp/LspService"⟩),
   ("mtxca",
    ⟨"Factura Electrónica Web Service",
     "Comprobantes electrónicos monotributo",
     "https://wswhomo.afip.gov.ar/wsmtxca/services/MTXCAService",
     "https://serviciosjava.afip.gob.ar/wsmtxca/services/MTXCAService"⟩),
   ("remcarneservice",
    ⟨"Webservice Remitos Electrónicos Cárnicos",
     "Remitos de carnes y subproductos derivados de faena",
     "https://wswhomo.afip.gov.ar/remcarne/RemCarneService",
     "https://serviciosjava.afip.gob.ar/remcarne/RemCarneService"⟩)]

/-- `ambiente`: the constructor argument selecting testing vs production. -/
inductive Ambiente
  | testing
  | production
  deriving DecidableEq, Repr

def ambienteStr : Ambiente → String
  | .testing => "testing"
  | .production => "production"

/-- The `destination_dn` two-entry table (lines 347-350). -/
def destinationDn : Ambiente → String
  | .production => "cn=wsaa,o=afip,c=ar,serialNumber=CUIT 33693450239"
  | .testing => "cn=wsaahomo,o=afip,c=ar,serialNumber=CUIT 33693450239"

/-- The TRA (`loginTicketRequest`) value built by `generar_tra`: the fields
written into the XML at lines 364-385.  `generationTime`/`expirationTime` are
the instants denoted by the formatted timestamps (seconds, the strftime format
carries no sub-second part). -/
structure TRA where
  source : Option String
  destino : String
  uniqueId : Int
  generationTime : Int
  expirationTime : Int
  service : String
  deriving DecidableEq, Repr

/-- Failures of the whole acquisition flow, one per distinguishable raised
exception.  `keyErrorServicio` is the `KeyError` from the
`self.SERVICIOS[servicio]['nombre']` lookup in the logging preamble of
`obtener_ticket_acceso` (line 505, before its `try` block);
`servicioInvalido` / `servicioLongitud` are the two `ValueError`s of
`generar_tra` (lines 323-328); the rest follow the signing, transport and
response-processing code below. -/
inductive FlowErr
  | keyErrorServicio
  | servicioInvalido
  | servicioLongitud
  | errorCms (msg : String)
  | cmsNoGenerado
  | opensslNoDisponible
  | timeoutWsaa
  | conexionWsaa
  | soapServidor500
  | httpError (status : Nat)
  | malformedRespuesta
  | soapTemporal (code desc : String)
  | soapPermanente (code desc : String)
  | sinLoginCmsReturn
  | base64Invalido
  | validacionWsaa (e : ValErr)
  | campoFaltante (campo : String)
  deriving DecidableEq, Repr

/-- `generar_tra` (lines 305-399).  Checks catalog membership, then the
3-to-32-character length bound, clamps `horas_validez` above 24 down to 24,
and builds the TRA: `generationTime` is the current clock reading `ahora`,
`expirationTime` is `ahora + horas * 3600`, and `uniqueId` is the
millisecond clock reading modulo `2^32` (line 344; Lean's `%` on `Int` is
`Int.emod`, matching Python's non-negative remainder). -/
def generarTra (amb : Ambiente) (sourceDn : Option String) (ahora ahoraMs : Int)
    (servicio : String) (horasValidez : Int) : Except FlowErr TRA :=
  if (SERVICIOS.lookup servicio).isNone then .error .servicioInvalido
  else if ¬ (3 ≤ servicio.length ∧ servicio.length ≤ 32) then .error .servicioLongitud
  else
    let horas : Int := if horasValidez > 24 then 24 else horasValidez
    .ok { source := sourceDn
          destino := destinationDn amb
          uniqueId := ahoraMs % (2 ^ 32 : Int)
          generationTime := ahora
          expirationTime := ahora + horas * 3600
          service := servicio }

/-- Serialization of the TRA to the XML text written to disk (lines 364-397).
The exact pretty-printing is irrelevant to every property below; the
serialization is modelled as a deterministic rendering of the same fields in
the source's element order. -/
def serializarTra (t : TRA) : String :=
  "<loginTicketRequest version=\"1.0\"><header>"
    ++ (match t.source with
        | some s => "<source>" ++ s ++ "</source>"
        | Option.none => "")
    ++ "<destination>" ++ t.destino ++ "</destination>"
    ++ "<uniqueId>" ++ toString t.uniqueId ++ "</uniqueId>"
    ++ "<generationTime>" ++ toString t.generationTime ++ "</generationTime>"
    ++ "<expirationTime>" ++ toString t.expirationTime ++ "</expirationTime>"
    ++ "</header><service>" ++ t.service ++ "</service></loginTicketRequest>"

/-! ## Files, state, and the signing step (`firmar_tra`, lines 401-486) -/

/-- The ticket dict after `_procesar_respuesta_wsaa` has added the service
metadata (lines 721-726). -/
structure TicketCompleto where
  datos : TicketData
  service : String
  serviceName : String
  environment : String
  generatedAt : Int
  deriving DecidableEq, Repr

/-- The body of an HTTP response from the WSAA endpoint, in the shape
`_procesar_respuesta_wsaa` (lines 668-742) distinguishes: unparsable XML, a
fault element (with optional `faultcode` text, defaulted to "unknown", and a
description), a parsed body without `loginCmsReturn`, or a `loginCmsReturn`
whose base64 payload either fails to decode or decodes to an inner
`loginTicketResponse` XML. -/
inductive SoapBody
  | malformed
  | fault (code : Option String) (desc : String)
  | sinLoginCmsReturn
  | loginCmsReturn (decodeOk : Bool) (inner : WsaaXml)
  deriving DecidableEq, Repr

/-- The files the client writes in the working directory, by their fixed
names: `LoginTicketRequest.xml` (`tra`), `LoginTicketRequest.xml.cms`
(`cms`), `LoginTicketRequest.xml.cms.base64` (`cmsBase64`),
`LoginTicketRequest_SOAP.xml` (`soapRequest`), `LoginTicketResponse.xml`
(`loginResponse`, holding the raw response body) and
`ticket_{servicio}_{ambiente}.json` (`ticketJson`).  `none` means the file is
absent. -/
structure Archivos where
  tra : Option String
  cms : Option String
  cmsBase64 : Option String
  soapRequest : Option String
  loginResponse : Option SoapBody
  ticketJson : Option TicketCompleto
  deriving DecidableEq, Repr

/-- An empty working directory. -/
def archivosVacios : Archivos :=
  ⟨Option.none, Option.none, Option.none, Option.none, Option.none, Option.none⟩

/-- Mutable state of one client: the working directory, the `tickets_cache`
dict (line 68), and two instrumentation counters recording how many times the
openssl subprocess and the HTTP POST were attempted. -/
structure Estado where
  archivos : Archivos
  cache : String → Option TicketCompleto
  llamadasFirma : Nat
  llamadasTransporte : Nat

/-- A fresh client state: empty directory, empty cache, no calls made. -/
def estadoInicial : Estado :=
  ⟨archivosVacios, fun _ => Option.none, 0, 0⟩

/-- Outcome of the `openssl cms -sign` subprocess in `firmar_tra`:
exit 0 with the CMS file written; exit 0 without the CMS file appearing
(the defensive check at line 445); a `CalledProcessError`; or
`FileNotFoundError` (openssl not installed). -/
inductive OpensslResult
  | escribeCms (cms : String)
  | exitoSinCms
  | procesoFalla (msg : String)
  | noEncontrado
  deriving DecidableEq, Repr

/-- The XML declaration prepended when writing the TRA file (line 419). -/
def xmlDecl : String := "<?xml version=\"1.0\" encoding=\"UTF-8\"?>\n"

/-- `firmar_tra` (lines 401-486).  It writes the TRA to
`LoginTicketRequest.xml`, runs openssl, and on success reads the CMS file and
removes the TRA file (lines 457-459) before returning.  On every failure path
(`CalledProcessError`, `FileNotFoundError`, or the missing-CMS check, whose
`raise Exception` is caught by none of the `except` clauses) the function
raises with the TRA file still on disk. -/
def firmarTra (openssl : OpensslResult) (traXml : String) (est : Estado) :
    Except FlowErr String × Estado :=
  let conTra : Estado :=
    { est with archivos := { est.archivos with tra := some (xmlDecl ++ traXml) }
               llamadasFirma := est.llamadasFirma + 1 }
  match openssl with
  | .escribeCms cms =>
      let conCms : Estado :=
        { conTra with archivos := { conTra.archivos with cms := some cms } }
      (.ok cms,
       { conCms with archivos := { conCms.archivos with tra := Option.none } })
  | .exitoSinCms => (.error .cmsNoGenerado, conTra)
  | .procesoFalla msg => (.error (.errorCms msg), conTra)
  | .noEncontrado => (.error .opensslNoDisponible, conTra)

/-! ## Transport and response processing (lines 603-742) -/

/-- The transport outcome of `requests.post`: timeout, connection error, or a
response with a status code and a body. -/
inductive HttpResult
  | timeout
  | connError
  | respuesta (status : Nat) (body : SoapBody)
  deriving DecidableEq, Repr

/-- The base64 encoding of the CMS bytes (line 526).  Its exact text is
irrelevant to every property below and is modelled as the identity coding. -/
def base64Cms (cms : String) : String := cms

/-- The SOAP envelope built around the base64 payload (lines 612-621). -/
def soapEnvelope (cmsB64 : String) : String :=
  "<soap:Envelope><soap:Body><wsaa:loginCms><wsaa:in0>"
    ++ cmsB64 ++ "</wsaa:in0></wsaa:loginCms></soap:Body></soap:Envelope>"

/-- `_procesar_respuesta_wsaa` (lines 668-742): fault detection and
classification via `_manejar_error_soap`, `loginCmsReturn` extraction, base64
decoding, validation via `_validar_respuesta_wsaa`, then enrichment with
service metadata and the write of `ticket_{servicio}_{ambiente}.json`.  The
catalog lookup for `service_name` cannot fail on the call path (the flow's
preamble already required membership); an absent entry is rendered as "". -/
def procesarRespuestaWsaa (body : SoapBody) (servicio : String) (amb : Ambiente)
    (ahora : Int) (est : Estado) : Except FlowErr TicketCompleto × Estado :=
  match body with
  | .malformed => (.error .malformedRespuesta, est)
  | .fault code desc =>
      match manejarErrorSoap (code.getD "unknown") with
      | .noRetry => (.error (.soapPermanente (code.getD "unknown") desc), est)
      | _ => (.error (.soapTemporal (code.getD "unknown") desc), est)
  | .sinLoginCmsReturn => (.error .sinLoginCmsReturn, est)
  | .loginCmsReturn decodeOk inner =>
      if decodeOk then
        match validarRespuestaWsaa inner ahora with
        | .error e => (.error (.validacionWsaa e), est)
        | .ok datos =>
            let tc : TicketCompleto :=
              { datos := datos
                service := servicio
                serviceName := (((SERVICIOS.lookup servicio).map
                  (fun i => i.nombre)).getD "")
                environment := ambienteStr amb
                generatedAt := ahora }
            (.ok tc,
             { est with archivos := { est.archivos with ticketJson := some tc } })
      else (.error .base64Invalido, est)

/-- `_enviar_wsaa` (lines 603-666).  It writes the SOAP request file, POSTs
(instrumented by the transport counter), and on receiving a response writes
the raw body to `LoginTicketResponse.xml` (line 644) before
`raise_for_status`.  `raise_for_status` raises for statuses in [400, 600);
the handler turns a 500 into the generic "Error SOAP del servidor AFIP"
exception (without handing the body to the response validator) and any other
error status into a generic HTTP-error exception.  Only a non-error status
reaches `_procesar_respuesta_wsaa`. -/
def enviarWsaa (http : HttpResult) (ahora : Int) (amb : Ambiente)
    (cmsB64 servicio : String) (est : Estado) :
    Except FlowErr TicketCompleto × Estado :=
  let conReq : Estado :=
    { est with archivos := { est.archivos with soapRequest := some (soapEnvelope cmsB64) }
               llamadasTransporte := est.llamadasTransporte + 1 }
  match http with
  | .timeout => (.error .timeoutWsaa, conReq)
  | .connError => (.error .conexionWsaa, conReq)
  | .respuesta status body =>
      let conResp : Estado :=
        { conReq with archivos := { conReq.archivos with loginResponse := some body } }
      if 400 ≤ status ∧ status < 600 then
        if status = 500 then (.error .soapServidor500, conResp)
        else (.error (.httpError status), conResp)
      else procesarRespuestaWsaa body servicio amb ahora conResp

/-- `_validar_ticket` (lines 560-601): the required-field check on the
enriched ticket dict.  Every other check in that function only prints
warnings.  (The `expiration` entry is structurally present here; it is a
non-empty string whenever `_validar_respuesta_wsaa` succeeded, since
`fromisoformat` rejects the empty string.) -/
def validarTicket (tc : TicketCompleto) : Except FlowErr Unit :=
  if tc.datos.token = "" then .error (.campoFaltante "token")
  else if tc.datos.sign = "" then .error (.campoFaltante "sign")
  else if tc.service = "" then .error (.campoFaltante "service")
  else .ok ()

/-! ## The acquisition flow (`obtener_ticket_acceso`, lines 488-558) -/

/-- The world a single `obtener_ticket_acceso` call runs against: the local
clock reading (seconds), the millisecond clock reading used for `uniqueId`,
the certificate-subject extraction result (`_extraer_subject_dn`, `none` on
failure — a non-fatal degradation), the openssl outcome and the HTTP
outcome. -/
structure Mundo where
  ahora : Int
  ahoraMs : Int
  subjectDn : Option String
  openssl : OpensslResult
  http : HttpResult

/-- `obtener_ticket_acceso` (lines 488-558).  The logging preamble at line
505 evaluates `self.SERVICIOS[servicio]['nombre']`, raising `KeyError`
before the `try` block for an unknown service.  Then: build the TRA (with the
default 12 validity hours), sign it, base64-encode (writing the `.base64`
file, lines 530-531), invoke the WSAA, validate the enriched ticket, and only
then store it in `tickets_cache` (line 545).  Every raised exception
propagates with the cache untouched. -/
def obtenerTicketAcceso (m : Mundo) (amb : Ambiente) (servicio : String)
    (est : Estado) : Except FlowErr TicketCompleto × Estado :=
  match SERVICIOS.lookup servicio with
  | Option.none => (.error .keyErrorServicio, est)
  | some _ =>
    match generarTra amb m.subjectDn m.ahora m.ahoraMs servicio 12 with
    | .error e => (.error e, est)
    | .ok tra =>
      match firmarTra m.openssl (serializarTra tra) est with
      | (.error e, est1) => (.error e, est1)
      | (.ok cms, est1) =>
        match enviarWsaa m.http m.ahora amb (base64Cms cms) servicio
            { est1 with archivos :=
                { est1.archivos with cmsBase64 := some (base64Cms cms) } } with
        | (.error e, est3) => (.error e, est3)
        | (.ok tc, est3) =>
          match validarTicket tc with
          | .error e => (.error e, est3)
          | .ok _ =>
            (.ok tc,
             { est3 with cache := fun k => if k = servicio then some tc else est3.cache k })

/-! ## Ticket cache -/

/-- The error signalled by the cache read when no valid ticket is held. -/
inductive CacheErr
  | noValidTicket
  deriving DecidableEq, Repr

/-- The expiration instant of a cached ticket by the validator's clock: the
naive local reading of its `expiration` timestamp text (the same reading
`_validar_respuesta_wsaa` compared against `datetime.now()`). -/
def expiracionLocal (tc : TicketCompleto) : Int :=
  tc.datos.expiration.base

/-- Modelled from the spec: the Ticket Cache read operation of §4.6 —
"`get(serviceId)` returns the cached ticket if present and not yet expired
(by `expirationTime`, validator's clock), else signals `NoValidTicket`".
The repository's source declares the cache dict (afip_client.py line 68) and
writes it on successful acquisition (line 545), but contains no read
operation anywhere under src/; this definition follows the spec's words.  It
is a pure read: it takes no state and performs no transport. -/
def cacheGet (c : String → Option TicketCompleto) (servicio : String)
    (ahora : Int) : Except CacheErr TicketCompleto :=
  match c servicio with
  | Option.none => .error .noValidTicket
  | some tc => if expiracionLocal tc < ahora then .error .noValidTicket else .ok tc

/-! ## Helper lemmas -/

/-- Response processing never rewrites the saved raw response body. -/
theorem procesar_loginResponse (body : SoapBody) (servicio : String) (amb : Ambiente)
    (ahora : Int) (est : Estado) :
    (procesarRespuestaWsaa body servicio amb ahora est).2.archivos.loginResponse =
      est.archivos.loginResponse := by
  unfold procesarRespuestaWsaa
  split <;> try rfl
  · split <;> rfl
  · split
    · split <;> rfl
    · rfl

/-- The signing step never touches the ticket cache. -/
theorem firmarTra_cache (o : OpensslResult) (xml : String) (est : Estado) :
    (firmarTra o xml est).2.cache = est.cache := by
  cases o <;> rfl

/-- Response processing never touches the ticket cache. -/
theorem procesar_cache (body : SoapBody) (servicio : String) (amb : Ambiente)
    (ahora : Int) (est : Estado) :
    (procesarRespuestaWsaa body servicio amb ahora est).2.cache = est.cache := by
  unfold procesarRespuestaWsaa
  split <;> try rfl
  · split <;> rfl
  · split
    · split <;> rfl
    · rfl

/-- The transport step never touches the ticket cache. -/
theorem enviarWsaa_cache (http : HttpResult) (ahora : Int) (amb : Ambiente)
    (cmsB64 servicio : String) (est : Estado) :
    (enviarWsaa http ahora amb cmsB64 servicio est).2.cache = est.cache := by
  unfold enviarWsaa
  split <;> try rfl
  split
  · split <;> rfl
  · exact procesar_cache _ _ _ _ _

/-- The acquisition flow either fails and leaves the ticket cache untouched,
or succeeds and overwrites exactly the entry of the requested service. -/
theorem obtener_cache_cases (m : Mundo) (amb : Ambiente) (servicio : String)
    (est : Estado) :
    ((∃ e, (obtenerTicketAcceso m amb servicio est).1 = .error e) ∧
      ∀ k, (obtenerTicketAcceso m amb servicio est).2.cache k = est.cache k) ∨
    (∃ tc, (obtenerTicketAcceso m amb servicio est).1 = .ok tc ∧
      ∀ k, (obtenerTicketAcceso m amb servicio est).2.cache k =
        if k = servicio then some tc else est.cache k) := by
  unfold obtenerTicketAcceso
  split
  · exact Or.inl ⟨⟨_, rfl⟩, fun k => rfl⟩
  rename_i info hinfo
  split
  · exact Or.inl ⟨⟨_, rfl⟩, fun k => rfl⟩
  rename_i tra htra
  split
  case _ e1 est1 hfirmar =>
    refine Or.inl ⟨⟨_, rfl⟩, fun k => ?_⟩
    have h1 := firmarTra_cache m.openssl (serializarTra tra) est
    rw [hfirmar] at h1
    exact congrFun h1 k
  case _ cms est1 hfirmar =>
    have h1 : est1.cache = est.cache := by
      have := firmarTra_cache m.openssl (serializarTra tra) est
      rw [hfirmar] at this
      exact this
    split
    case _ e2 est3 henviar =>
      refine Or.inl ⟨⟨_, rfl⟩, fun k => ?_⟩
      have h2 : est3.cache = est1.cache := by
        have := enviarWsaa_cache m.http m.ahora amb (base64Cms cms) servicio
          { est1 with archivos :=
              { est1.archivos with cmsBase64 := some (base64Cms cms) } }
        rw [henviar] at this
        exact this
      rw [h2, h1]
    case _ tc est3 henviar =>
      have h2 : est3.cache = est1.cache := by
        have := enviarWsaa_cache m.http m.ahora amb (base64Cms cms) servicio
          { est1 with archivos :=
              { est1.archivos with cmsBase64 := some (base64Cms cms) } }
        rw [henviar] at this
        exact this
      split
      · exact Or.inl ⟨⟨_, rfl⟩, fun k => by rw [h2, h1]⟩
      · refine Or.inr ⟨tc, rfl, fun k => ?_⟩
        by_cases hk : k = servicio
        · simp [hk]
        · simp only [hk, if_false]
          rw [h2, h1]

/-- Inversion of `_validar_respuesta_wsaa`: whenever it returns a ticket, the
response had a complete header, both timestamps parsed (after the `-03:00`
strip) to naive datetimes that passed the expiry and clock-skew checks
against the validator's clock, and the credentials block carried a non-empty
token and sign — exactly the fields the returned dict is built from. -/
theorem validarResp_ok_inv (r : LoginTicketResponse) (ahora : Int) (td : TicketData)
    (h : validarRespuestaWsaa (.resp r) ahora = .ok td) :
    ∃ hd, r.header = some hd ∧
      hd.source.isSome = true ∧ hd.destino.isSome = true ∧
      hd.uniqueId = some td.uniqueId ∧
      hd.generationTime = some td.generation ∧
      hd.expirationTime = some td.expiration ∧
      (∃ g, fromisoformat (stripMinus0300 td.generation) = some (.naive g) ∧
        ¬ ahora < g) ∧
      (∃ e, fromisoformat (stripMinus0300 td.expiration) = some (.naive e) ∧
        ¬ e < ahora) ∧
      ∃ c, r.credentials = some c ∧ c.token = some td.token ∧
        c.sign = some td.sign ∧ td.token ≠ "" ∧ td.sign ≠ "" := by
  simp only [validarRespuestaWsaa] at h
  split at h
  · exact Except.noConfusion h
  rename_i hd hhd
  split at h
  case _ s d uid genTs expTs e1 e2 e3 e4 e5 =>
    split at h
    · exact Except.noConfusion h
    rename_i genDt hgen
    split at h
    · exact Except.noConfusion h
    rename_i expDt hexp
    split at h
    · exact Except.noConfusion h
    rename_i expPast hexpCmp
    split at h
    · exact Except.noConfusion h
    rename_i hexpPast
    split at h
    · exact Except.noConfusion h
    rename_i genFuturo hgenCmp
    split at h
    · exact Except.noConfusion h
    rename_i hgenFuturo
    split at h
    · exact Except.noConfusion h
    rename_i c hc
    split at h
    case _ tok sg etok esg =>
      split at h
      · exact Except.noConfusion h
      rename_i hvacios
      injection h with h
      subst h
      push_neg at hvacios
      -- the compared datetimes must be naive for `pyLtDt` to return `some`
      have hexpNaive : ∃ e, expDt = PyDt.naive e ∧ expPast = decide (e < ahora) := by
        cases expDt with
        | naive e =>
            refine ⟨e, rfl, ?_⟩
            simp only [pyLtDt, Option.some.injEq] at hexpCmp
            exact hexpCmp.symm
        | aware t o => simp [pyLtDt] at hexpCmp
      have hgenNaive : ∃ g, genDt = PyDt.naive g ∧ genFuturo = decide (ahora < g) := by
        cases genDt with
        | naive g =>
            refine ⟨g, rfl, ?_⟩
            simp only [pyLtDt, Option.some.injEq] at hgenCmp
            exact hgenCmp.symm
        | aware t o => simp [pyLtDt] at hgenCmp
      obtain ⟨e, hE, hEP⟩ := hexpNaive
      obtain ⟨g, hG, hGP⟩ := hgenNaive
      refine ⟨hd, hhd, by simp [e1], by simp [e2], e3, e4, e5, ⟨g, ?_, ?_⟩,
        ⟨e, ?_, ?_⟩, c, hc, etok, esg, hvacios.1, hvacios.2⟩
      · rw [hgen, hG]
      · intro hcon
        rw [hGP] at hgenFuturo
        simp at hgenFuturo
        omega
      · rw [hexp, hE]
      · intro hcon
        rw [hEP] at hexpPast
        simp at hexpPast
        omega
    case _ =>
      exact Except.noConfusion h
  case _ =>
    exact Except.noConfusion h

/-! ## C6: the SOAP error classifier -/

/-- The two fault-code sets of `_manejar_error_soap` are disjoint. -/
theorem erroresDisjuntos : ∀ c ∈ erroresConEspera, c ∉ erroresSinReintento := by
  decide

/-- C6: the Error Classifier is a total function from fault codes to the
three verdicts: every code in the no-retry set (including
"coe.alreadyAuthenticated") yields `noRetry`, every code in the
retry-after-delay set (including "wsaa.internalError") yields
`retryAfterDelay 60`, and every code in neither set yields
`unknownRetryable`.  (Totality holds by construction: `manejarErrorSoap` is a
function, and the three cases cover all strings.) -/
theorem C6_clasificador_total :
    (∀ c, c ∈ erroresSinReintento → manejarErrorSoap c = .noRetry) ∧
    (∀ c, c ∈ erroresConEspera → manejarErrorSoap c = .retryAfterDelay 60) ∧
    (∀ c, c ∉ erroresSinReintento → c ∉ erroresConEspera →
      manejarErrorSoap c = .unknownRetryable) ∧
    "coe.alreadyAuthenticated" ∈ erroresSinReintento ∧
    "wsaa.internalError" ∈ erroresConEspera := by
  refine ⟨?_, ?_, ?_, by decide, by decide⟩
  · intro c hc
    simp [manejarErrorSoap, hc]
  · intro c hc
    have h1 : c ∉ erroresSinReintento := erroresDisjuntos c hc
    simp [manejarErrorSoap, h1, hc]
  · intro c h1 h2
    simp [manejarErrorSoap, h1, h2]

/-- Witness for C6 at the three scenario codes of the spec. -/
theorem C6_clasificador_witness :
    manejarErrorSoap "coe.alreadyAuthenticated" = .noRetry ∧
    manejarErrorSoap "wsaa.internalError" = .retryAfterDelay 60 ∧
    manejarErrorSoap "totally.unknown.code" = .unknownRetryable :=
  ⟨C6_clasificador_total.1 _ (by decide),
   C6_clasificador_total.2.1 _ (by decide),
   C6_clasificador_total.2.2.1 _ (by decide) (by decide)⟩

/-! ## C7: validity window of the built TRA -/

/-- Every serviceId present in the catalog is one of the three entries. -/
theorem lookup_servicios_cases (servicio : String)
    (hs : (SERVICIOS.lookup servicio).isSome = true) :
    servicio = "wslsp" ∨ servicio = "mtxca" ∨ servicio = "remcarneservice" := by
  by_cases h1 : servicio = "wslsp"
  · exact Or.inl h1
  by_cases h2 : servicio = "mtxca"
  · exact Or.inr (Or.inl h2)
  by_cases h3 : servicio = "remcarneservice"
  · exact Or.inr (Or.inr h3)
  have b1 : (servicio == "wslsp") = false := beq_eq_false_iff_ne.mpr h1
  have b2 : (servicio == "mtxca") = false := beq_eq_false_iff_ne.mpr h2
  have b3 : (servicio == "remcarneservice") = false := beq_eq_false_iff_ne.mpr h3
  simp [SERVICIOS, List.lookup, b1, b2, b3] at hs

/-- C7: for every catalogued serviceId and every requested validity-hours
value, the built TRA satisfies `expirationTime - generationTime =
min(requestedHours, 24) hours`, never exceeding 24 hours; values above 24 are
clamped, not rejected (the build still succeeds). -/
theorem C7_ventana_validez (amb : Ambiente) (dn : Option String)
    (ahora ahoraMs horas : Int) (servicio : String)
    (hs : (SERVICIOS.lookup servicio).isSome = true) :
    ∃ tra, generarTra amb dn ahora ahoraMs servicio horas = .ok tra ∧
      tra.expirationTime - tra.generationTime = min horas 24 * 3600 ∧
      tra.expirationTime - tra.generationTime ≤ 24 * 3600 := by
  have hlen : ¬ (SERVICIOS.lookup servicio).isNone = true ∧
      3 ≤ servicio.length ∧ servicio.length ≤ 32 := by
    rcases lookup_servicios_cases servicio hs with h | h | h <;> subst h <;>
      exact ⟨by decide, by decide, by decide⟩
  have heq : generarTra amb dn ahora ahoraMs servicio horas =
      .ok { source := dn
            destino := destinationDn amb
            uniqueId := ahoraMs % (2 ^ 32 : Int)
            generationTime := ahora
            expirationTime := ahora + (if horas > 24 then 24 else horas) * 3600
            service := servicio } := by
    unfold generarTra
    rw [if_neg hlen.1, if_neg (not_not_intro ⟨hlen.2.1, hlen.2.2⟩)]
  refine ⟨_, heq, ?_, ?_⟩
  · show (ahora + (if horas > 24 then 24 else horas) * 3600) - ahora = min horas 24 * 3600
    rcases lt_or_le 24 horas with hlt | hle
    · rw [if_pos hlt, min_eq_right hlt.le]; ring
    · rw [if_neg (not_lt.2 hle), min_eq_left hle]; ring
  · show (ahora + (if horas > 24 then 24 else horas) * 3600) - ahora ≤ 24 * 3600
    rcases lt_or_le 24 horas with hlt | hle
    · rw [if_pos hlt]; omega
    · rw [if_neg (not_lt.2 hle)]
      have : horas * 3600 ≤ 24 * 3600 :=
        mul_le_mul_of_nonneg_right hle (by norm_num)
      omega

/-- Witness for C7: the catalogued id "wslsp" with a requested 30-hour window
is clamped to a 24-hour span. -/
theorem C7_ventana_witness :
    ∃ tra, generarTra .testing Option.none 0 0 "wslsp" 30 = .ok tra ∧
      tra.expirationTime - tra.generationTime = min 30 24 * 3600 ∧
      tra.expirationTime - tra.generationTime ≤ 24 * 3600 :=
  C7_ventana_validez .testing Option.none 0 0 30 "wslsp" (by decide)

/-! ## C9: uniqueId fits in 32 unsigned bits -/

/-- C9: every built TRA's `uniqueId` is the millisecond clock reading reduced
modulo `2^32`, hence lies in `[0, 2^32)`. -/
theorem C9_uniqueId_32bits (amb : Ambiente) (dn : Option String)
    (ahora ahoraMs horas : Int) (servicio : String) (tra : TRA)
    (h : generarTra amb dn ahora ahoraMs servicio horas = .ok tra) :
    tra.uniqueId = ahoraMs % 2 ^ 32 ∧ 0 ≤ tra.uniqueId ∧ tra.uniqueId < 2 ^ 32 := by
  unfold generarTra at h
  split at h
  · exact absurd h (by simp)
  split at h
  · exact absurd h (by simp)
  injection h with h
  subst h
  refine ⟨rfl, Int.emod_nonneg _ (by norm_num), Int.emod_lt_of_pos _ (by norm_num)⟩

/-- Witness for C9 at a concrete millisecond clock reading. -/
theorem C9_uniqueId_witness :
    (⟨Option.none, destinationDn .testing, 5000000000000 % 2 ^ 32, 0, 12 * 3600,
        "wslsp"⟩ : TRA).uniqueId = (5000000000000 : Int) % 2 ^ 32 ∧
      0 ≤ (⟨Option.none, destinationDn .testing, 5000000000000 % 2 ^ 32, 0, 12 * 3600,
        "wslsp"⟩ : TRA).uniqueId ∧
      (⟨Option.none, destinationDn .testing, 5000000000000 % 2 ^ 32, 0, 12 * 3600,
        "wslsp"⟩ : TRA).uniqueId < 2 ^ 32 :=
  C9_uniqueId_32bits .testing Option.none 0 5000000000000 12 "wslsp" _ rfl

/-! ## C1: timestamp validation gates every returned ticket -/

/-- C1: (1) `_validar_respuesta_wsaa` returns a ticket only if the embedded
timestamps passed validation against the validator's own clock — both parse
(after the `-03:00` strip) to naive local times with the generation not in
the future and the expiration not already past; (2) a response complete
enough to reach the timestamp check, whose expiration the code parses to a
local time earlier than the clock, always yields the expired-ticket failure;
(3) whenever the acquisition flow fails — in particular on that expired
failure — the ticket cache is left untouched, so such a response is never
stored. -/
theorem C1_validacion_temporal :
    (∀ (xml : WsaaXml) (ahora : Int) (td : TicketData),
        validarRespuestaWsaa xml ahora = .ok td →
        ∃ g e, fromisoformat (stripMinus0300 td.generation) = some (.naive g) ∧
          fromisoformat (stripMinus0300 td.expiration) = some (.naive e) ∧
          ¬ ahora < g ∧ ¬ e < ahora) ∧
    (∀ (r : LoginTicketResponse) (hd : RespHeader) (ahora : Int)
        (s d uid : String) (genTs expTs : TsText) (genDt : PyDt) (e : Int),
        r.header = some hd → hd.source = some s → hd.destino = some d →
        hd.uniqueId = some uid → hd.generationTime = some genTs →
        hd.expirationTime = some expTs →
        fromisoformat (stripMinus0300 genTs) = some genDt →
        fromisoformat (stripMinus0300 expTs) = some (.naive e) →
        e < ahora →
        validarRespuestaWsaa (.resp r) ahora = .error .ticketExpirado) ∧
    (∀ (m : Mundo) (amb : Ambiente) (servicio : String) (est : Estado) (e : FlowErr),
        (obtenerTicketAcceso m amb servicio est).1 = .error e →
        ∀ k, (obtenerTicketAcceso m amb servicio est).2.cache k = est.cache k) := by
  refine ⟨?_, ?_, ?_⟩
  · intro xml ahora td h
    cases xml with
    | malformed => exact Except.noConfusion h
    | sinTicketResponse => exact Except.noConfusion h
    | resp r =>
        obtain ⟨hd, -, -, -, -, -, -, ⟨g, hg, hgf⟩, ⟨e, he, hef⟩, -⟩ :=
          validarResp_ok_inv r ahora td h
        exact ⟨g, e, hg, he, hgf, hef⟩
  · intro r hd ahora s d uid genTs expTs genDt e hhd hs hdst huid hgen hexp hgp hep hlt
    obtain ⟨hdr, creds⟩ := r
    simp only at hhd
    subst hhd
    simp [validarRespuestaWsaa, hs, hdst, huid, hgen, hexp, hgp, hep, pyLtDt, hlt]
  · intro m amb servicio est e h k
    rcases obtener_cache_cases m amb servicio est with ⟨-, hc⟩ | ⟨tc, hok, -⟩
    · exact hc k
    · rw [h] at hok
      exact Except.noConfusion hok

/-- Witness for C1: a well-formed response with `-03:00` timestamps and an
expiration of 500 against a clock of 1000 yields the expired-ticket failure;
a failing flow (here: the signing subprocess fails) leaves the fresh empty
cache empty; and a validated ticket's timestamps satisfy the clock checks. -/
theorem C1_validacion_witness :
    validarRespuestaWsaa
        (.resp ⟨some ⟨some "src", some "dst", some "1",
          some ⟨100, .minus0300⟩, some ⟨500, .minus0300⟩⟩,
          some ⟨some "tok", some "sg"⟩⟩) 1000 = .error .ticketExpirado ∧
    (obtenerTicketAcceso ⟨0, 5, Option.none, .procesoFalla "clave mala", .timeout⟩
        .testing "wslsp" estadoInicial).2.cache "wslsp" = estadoInicial.cache "wslsp" ∧
    (∃ g e, fromisoformat (stripMinus0300
        (⟨"tok", "sg", ⟨2000, .minus0300⟩, ⟨100, .minus0300⟩, "1"⟩ : TicketData).generation)
          = some (.naive g) ∧
      fromisoformat (stripMinus0300
        (⟨"tok", "sg", ⟨2000, .minus0300⟩, ⟨100, .minus0300⟩, "1"⟩ : TicketData).expiration)
          = some (.naive e) ∧
      ¬ (1000 : Int) < g ∧ ¬ e < 1000) :=
  ⟨C1_validacion_temporal.2.1 _ _ 1000 "src" "dst" "1" ⟨100, .minus0300⟩ ⟨500, .minus0300⟩
      (.naive 100) 500 rfl rfl rfl rfl rfl rfl rfl rfl (by norm_num),
   C1_validacion_temporal.2.2 ⟨0, 5, Option.none, .procesoFalla "clave mala", .timeout⟩
      .testing "wslsp" estadoInicial (.errorCms "clave mala") rfl "wslsp",
   C1_validacion_temporal.1
      (.resp ⟨some ⟨some "src", some "dst", some "1",
        some ⟨100, .minus0300⟩, some ⟨2000, .minus0300⟩⟩,
        some ⟨some "tok", some "sg"⟩⟩) 1000
      ⟨"tok", "sg", ⟨2000, .minus0300⟩, ⟨100, .minus0300⟩, "1"⟩ rfl⟩

/-! ## C2: missing required fields -/

/-- Counterexample to C2 as stated: a decoded payload whose credentials block
is absent but whose (complete) header carries an already-past expiration is
rejected with the expired-ticket failure, not the incomplete-ticket one —
`_validar_respuesta_wsaa` validates the timestamps (lines 246-265) before it
ever looks at `credentials` (line 268), while the claim (and the spec's §4.4
step order) requires `IncompleteTicket` for every payload missing
`credentials/token`/`sign`. -/
theorem C2_incompleto_counterexample :
    validarRespuestaWsaa
        (.resp ⟨some ⟨some "src", some "dst", some "1",
          some ⟨100, .minus0300⟩, some ⟨500, .minus0300⟩⟩, Option.none⟩) 1000
      = .error .ticketExpirado ∧
    ValErr.ticketExpirado ≠ ValErr.sinCredentials ∧
    ValErr.ticketExpirado ≠ ValErr.sinTokenOSign ∧
    ValErr.ticketExpirado ≠ ValErr.headerIncompleto :=
  ⟨rfl, by decide, by decide, by decide⟩

/-- C2 (amended): a missing required header field always yields the
incomplete-header failure (a missing header element the missing-header
failure); a payload missing the credentials block or its token/sign elements
is always a hard failure — never a partially-populated ticket — and when the
timestamp checks pass, that failure is precisely the missing-credentials or
missing-token/sign one; but the timestamp failures take precedence over
missing credentials, because the code checks timestamps first. -/
theorem C2_campos_faltantes :
    (∀ (r : LoginTicketResponse) (hd : RespHeader) (ahora : Int),
        r.header = some hd →
        (hd.source = Option.none ∨ hd.destino = Option.none ∨
         hd.uniqueId = Option.none ∨ hd.generationTime = Option.none ∨
         hd.expirationTime = Option.none) →
        validarRespuestaWsaa (.resp r) ahora = .error .headerIncompleto) ∧
    (∀ (r : LoginTicketResponse) (ahora : Int), r.header = Option.none →
        validarRespuestaWsaa (.resp r) ahora = .error .sinHeader) ∧
    (∀ (r : LoginTicketResponse) (ahora : Int) (td : TicketData),
        (r.credentials = Option.none ∨
         ∃ c, r.credentials = some c ∧
           (c.token = Option.none ∨ c.sign = Option.none)) →
        validarRespuestaWsaa (.resp r) ahora ≠ .ok td) ∧
    (∀ (r : LoginTicketResponse) (hd : RespHeader) (ahora : Int)
        (s d uid : String) (genTs expTs : TsText) (g e : Int),
        r.header = some hd → hd.source = some s → hd.destino = some d →
        hd.uniqueId = some uid → hd.generationTime = some genTs →
        hd.expirationTime = some expTs →
        fromisoformat (stripMinus0300 genTs) = some (.naive g) →
        fromisoformat (stripMinus0300 expTs) = some (.naive e) →
        ¬ e < ahora → ¬ ahora < g →
        (r.credentials = Option.none →
            validarRespuestaWsaa (.resp r) ahora = .error .sinCredentials) ∧
        (∀ c, r.credentials = some c →
            (c.token = Option.none ∨ c.sign = Option.none) →
            validarRespuestaWsaa (.resp r) ahora = .error .sinTokenOSign)) := by
  refine ⟨?_, ?_, ?_, ?_⟩
  · intro r hd ahora hhd hfalta
    obtain ⟨hdr, creds⟩ := r
    simp only at hhd
    subst hhd
    obtain ⟨so, de, un, ge, ex⟩ := hd
    simp only at hfalta
    cases so <;> cases de <;> cases un <;> cases ge <;> cases ex <;>
      simp_all [validarRespuestaWsaa]
  · intro r ahora hhd
    obtain ⟨hdr, creds⟩ := r
    simp only at hhd
    subst hhd
    simp [validarRespuestaWsaa]
  · intro r ahora td hfalta h
    obtain ⟨-, -, -, -, -, -, -, -, -, c, hc, htok, hsg, -, -⟩ :=
      validarResp_ok_inv r ahora td h
    rcases hfalta with hnone | ⟨c2, hc2, hmiss⟩
    · rw [hnone] at hc
      exact Option.noConfusion hc
    · rw [hc2] at hc
      injection hc with hc
      subst hc
      rcases hmiss with hm | hm
      · rw [hm] at htok
        exact Option.noConfusion htok
      · rw [hm] at hsg
        exact Option.noConfusion hsg
  · intro r hd ahora s d uid genTs expTs g e hhd hs hdst huid hgen hexp hgp hep hne hng
    obtain ⟨hdr, creds⟩ := r
    simp only at hhd
    subst hhd
    constructor
    · intro hcnone
      simp only at hcnone
      subst hcnone
      simp [validarRespuestaWsaa, hs, hdst, huid, hgen, hexp, hgp, hep, pyLtDt, hne, hng]
    · intro c hcsome hmiss
      simp only at hcsome
      subst hcsome
      obtain ⟨ct, cs⟩ := c
      simp only at hmiss
      rcases hmiss with hm | hm <;> subst hm
      · cases cs <;> simp_all [validarRespuestaWsaa, pyLtDt] <;>
          rw [if_neg (by omega), if_neg (by omega)]
      · cases ct <;> simp_all [validarRespuestaWsaa, pyLtDt] <;>
          rw [if_neg (by omega), if_neg (by omega)]

/-- Witness for C2 (amended): a payload missing `source` yields the
incomplete-header failure; one with valid timestamps and no credentials block
yields the missing-credentials failure; a payload with a missing `sign` and
valid timestamps is not accepted. -/
theorem C2_campos_witness :
    validarRespuestaWsaa
        (.resp ⟨some ⟨Option.none, some "dst", some "1",
          some ⟨100, .minus0300⟩, some ⟨2000, .minus0300⟩⟩,
          some ⟨some "tok", some "sg"⟩⟩) 1000 = .error .headerIncompleto ∧
    validarRespuestaWsaa
        (.resp ⟨some ⟨some "src", some "dst", some "1",
          some ⟨100, .minus0300⟩, some ⟨2000, .minus0300⟩⟩, Option.none⟩) 1000
      = .error .sinCredentials ∧
    validarRespuestaWsaa
        (.resp ⟨some ⟨some "src", some "dst", some "1",
          some ⟨100, .minus0300⟩, some ⟨2000, .minus0300⟩⟩,
          some ⟨some "tok", Option.none⟩⟩) 1000
      ≠ .ok ⟨"tok", "", ⟨2000, .minus0300⟩, ⟨100, .minus0300⟩, "1"⟩ :=
  ⟨C2_campos_faltantes.1 _ ⟨Option.none, some "dst", some "1",
      some ⟨100, .minus0300⟩, some ⟨2000, .minus0300⟩⟩ 1000 rfl (Or.inl rfl),
   (C2_campos_faltantes.2.2.2 _ ⟨some "src", some "dst", some "1",
      some ⟨100, .minus0300⟩, some ⟨2000, .minus0300⟩⟩ 1000 "src" "dst" "1"
      ⟨100, .minus0300⟩ ⟨2000, .minus0300⟩ 100 2000 rfl rfl rfl rfl rfl rfl rfl rfl
      (by norm_num) (by norm_num)).1 rfl,
   C2_campos_faltantes.2.2.1 _ 1000 _
      (Or.inr ⟨⟨some "tok", Option.none⟩, rfl, Or.inr rfl⟩)⟩

/-! ## C10: timezone suffixes other than the literal -03:00 -/

/-- A timestamp text that parses to a naive datetime after the `-03:00` strip
carried either no offset or exactly the `-03:00` suffix. -/
theorem tz_de_parse_naive (ts : TsText) (v : Int)
    (h : fromisoformat (stripMinus0300 ts) = some (.naive v)) :
    ts.tz = .noOffset ∨ ts.tz = .minus0300 := by
  obtain ⟨b, tz⟩ := ts
  cases tz <;> simp_all [stripMinus0300, fromisoformat]

/-- Counterexample to C10 as stated: its closing clause says only timestamps
bearing exactly the `-03:00` offset can pass validation, but a response whose
timestamps carry NO offset at all also passes — the bare texts parse to naive
datetimes and compare cleanly against the naive local clock. -/
theorem C10_sufijo_counterexample :
    validarRespuestaWsaa
        (.resp ⟨some ⟨some "src", some "dst", some "1",
          some ⟨100, .noOffset⟩, some ⟨2000, .noOffset⟩⟩,
          some ⟨some "tok", some "sg"⟩⟩) 1000
      = .ok ⟨"tok", "sg", ⟨2000, .noOffset⟩, ⟨100, .noOffset⟩, "1"⟩ ∧
    TzSuffix.noOffset ≠ TzSuffix.minus0300 :=
  ⟨rfl, by decide⟩

/-- C10 (amended): a timestamp suffix other than `-03:00` or the empty one is
always rejected with the date-error failure and never yields a ticket — (1)
any accepted ticket's timestamps carried either the stripped `-03:00` suffix
or no offset at all; (2) a foreign or unparseable suffix on `expirationTime`
(in an otherwise complete header) fails with the date error, whatever the
denoted instant; (3) so does a foreign or unparseable suffix on
`generationTime` when the expiration check itself passes. -/
theorem C10_sufijos_extranjeros :
    (∀ (r : LoginTicketResponse) (ahora : Int) (td : TicketData),
        validarRespuestaWsaa (.resp r) ahora = .ok td →
        (td.generation.tz = .noOffset ∨ td.generation.tz = .minus0300) ∧
        (td.expiration.tz = .noOffset ∨ td.expiration.tz = .minus0300)) ∧
    (∀ (r : LoginTicketResponse) (hd : RespHeader) (ahora : Int)
        (s d uid : String) (genTs expTs : TsText),
        r.header = some hd → hd.source = some s → hd.destino = some d →
        hd.uniqueId = some uid → hd.generationTime = some genTs →
        hd.expirationTime = some expTs →
        ((∃ mOff, expTs.tz = .otherOffset mOff) ∨ expTs.tz = .unparseableTz) →
        validarRespuestaWsaa (.resp r) ahora = .error .errorFechas) ∧
    (∀ (r : LoginTicketResponse) (hd : RespHeader) (ahora : Int)
        (s d uid : String) (genTs expTs : TsText) (e : Int),
        r.header = some hd → hd.source = some s → hd.destino = some d →
        hd.uniqueId = some uid → hd.generationTime = some genTs →
        hd.expirationTime = some expTs →
        ((∃ mOff, genTs.tz = .otherOffset mOff) ∨ genTs.tz = .unparseableTz) →
        fromisoformat (stripMinus0300 expTs) = some (.naive e) →
        ¬ e < ahora →
        validarRespuestaWsaa (.resp r) ahora = .error .errorFechas) := by
  refine ⟨?_, ?_, ?_⟩
  · intro r ahora td h
    obtain ⟨-, -, -, -, -, -, -, ⟨g, hg, -⟩, ⟨e, he, -⟩, -⟩ :=
      validarResp_ok_inv r ahora td h
    exact ⟨tz_de_parse_naive _ _ hg, tz_de_parse_naive _ _ he⟩
  · intro r hd ahora s d uid genTs expTs hhd hs hdst huid hgen hexp hforeign
    obtain ⟨hdr, creds⟩ := r
    simp only at hhd
    subst hhd
    obtain ⟨eb, etz⟩ := expTs
    rcases hforeign with ⟨mOff, hm⟩ | hm <;> simp only at hm <;> subst hm <;>
      simp [validarRespuestaWsaa, hs, hdst, huid, hgen, hexp,
        stripMinus0300, fromisoformat, pyLtDt] <;>
      split <;> rfl
  · intro r hd ahora s d uid genTs expTs e hhd hs hdst huid hgen hexp hforeign hep hne
    obtain ⟨hdr, creds⟩ := r
    simp only at hhd
    subst hhd
    obtain ⟨gb, gtz⟩ := genTs
    rcases hforeign with ⟨mOff, hm⟩ | hm <;> simp only at hm <;> subst hm <;>
      simp only [validarRespuestaWsaa, hs, hdst, huid, hgen, hexp, hep] <;>
      simp [stripMinus0300, fromisoformat, pyLtDt, hne]

/-- Witness for C10 (amended): a `+00:00`-style offset (here +0 minutes) on
`expirationTime` is rejected with the date error even though its denoted
instant lies in the future; so is one on `generationTime`; and the accepted
ticket of the counterexample indeed carried offset-free timestamps. -/
theorem C10_sufijos_witness :
    validarRespuestaWsaa
        (.resp ⟨some ⟨some "src", some "dst", some "1",
          some ⟨100, .minus0300⟩, some ⟨2000, .otherOffset 0⟩⟩,
          some ⟨some "tok", some "sg"⟩⟩) 1000 = .error .errorFechas ∧
    validarRespuestaWsaa
        (.resp ⟨some ⟨some "src", some "dst", some "1",
          some ⟨100, .otherOffset 0⟩, some ⟨2000, .minus0300⟩⟩,
          some ⟨some "tok", some "sg"⟩⟩) 1000 = .error .errorFechas ∧
    ((⟨"tok", "sg", ⟨2000, .noOffset⟩, ⟨100, .noOffset⟩, "1"⟩ : TicketData).generation.tz
        = .noOffset ∨
      (⟨"tok", "sg", ⟨2000, .noOffset⟩, ⟨100, .noOffset⟩, "1"⟩ : TicketData).generation.tz
        = .minus0300) :=
  ⟨C10_sufijos_extranjeros.2.1 _ ⟨some "src", some "dst", some "1",
      some ⟨100, .minus0300⟩, some ⟨2000, .otherOffset 0⟩⟩ 1000 "src" "dst" "1"
      ⟨100, .minus0300⟩ ⟨2000, .otherOffset 0⟩ rfl rfl rfl rfl rfl rfl
      (Or.inl ⟨0, rfl⟩),
   C10_sufijos_extranjeros.2.2 _ ⟨some "src", some "dst", some "1",
      some ⟨100, .otherOffset 0⟩, some ⟨2000, .minus0300⟩⟩ 1000 "src" "dst" "1"
      ⟨100, .otherOffset 0⟩ ⟨2000, .minus0300⟩ 2000 rfl rfl rfl rfl rfl rfl
      (Or.inl ⟨0, rfl⟩) rfl (by norm_num),
   (C10_sufijos_extranjeros.1
      ⟨some ⟨some "src", some "dst", some "1",
        some ⟨100, .noOffset⟩, some ⟨2000, .noOffset⟩⟩,
        some ⟨some "tok", some "sg"⟩⟩ 1000
      ⟨"tok", "sg", ⟨2000, .noOffset⟩, ⟨100, .noOffset⟩, "1"⟩ rfl).1⟩

/-! ## C3: HTTP 500 responses and the SOAP fault they may carry -/

/-- Counterexample to C3 as stated: a 500 response whose body carries a
structured fault (here `coe.alreadyAuthenticated`) is aborted by
`_enviar_wsaa` with the generic "Error SOAP del servidor AFIP" failure —
`raise_for_status()` fires before `_procesar_respuesta_wsaa` ever sees the
body, so the fault is not interpreted or classified, although the Response
Validator would have classified it (second conjunct). -/
theorem C3_cuerpo500_counterexample :
    (enviarWsaa (.respuesta 500 (.fault (some "coe.alreadyAuthenticated") "ya autenticado"))
        0 .testing "b64" "wslsp" estadoInicial).1 = .error .soapServidor500 ∧
    (procesarRespuestaWsaa (.fault (some "coe.alreadyAuthenticated") "ya autenticado")
        "wslsp" .testing 0 estadoInicial).1
      = .error (.soapPermanente "coe.alreadyAuthenticated" "ya autenticado") ∧
    FlowErr.soapServidor500 ≠
      FlowErr.soapPermanente "coe.alreadyAuthenticated" "ya autenticado" :=
  ⟨rfl, rfl, by decide⟩

/-- C3 (amended): the raw body of every received response is preserved — it
is written to `LoginTicketResponse.xml` before the status check — but on a
500 status the call aborts with the generic server-error failure without
handing the body to the Response Validator; the body reaches
`_procesar_respuesta_wsaa` (fault interpretation and classification) only
when the status is outside the error range [400, 600). -/
theorem C3_cuerpo500_preservado :
    (∀ (ahora : Int) (amb : Ambiente) (cmsB64 servicio : String) (est : Estado)
        (status : Nat) (body : SoapBody),
        (enviarWsaa (.respuesta status body) ahora amb cmsB64 servicio
          est).2.archivos.loginResponse = some body) ∧
    (∀ (ahora : Int) (amb : Ambiente) (cmsB64 servicio : String) (est : Estado)
        (body : SoapBody),
        (enviarWsaa (.respuesta 500 body) ahora amb cmsB64 servicio est).1 =
          .error .soapServidor500) ∧
    (∀ (ahora : Int) (amb : Ambiente) (cmsB64 servicio : String) (est : Estado)
        (status : Nat) (body : SoapBody),
        ¬ (400 ≤ status ∧ status < 600) →
        enviarWsaa (.respuesta status body) ahora amb cmsB64 servicio est =
          procesarRespuestaWsaa body servicio amb ahora
            { est with
                archivos := { est.archivos with
                  soapRequest := some (soapEnvelope cmsB64)
                  loginResponse := some body }
                llamadasTransporte := est.llamadasTransporte + 1 }) := by
  refine ⟨?_, ?_, ?_⟩
  · intro ahora amb cmsB64 servicio est status body
    simp only [enviarWsaa]
    split
    · split <;> rfl
    · rw [procesar_loginResponse]
  · intro ahora amb cmsB64 servicio est body
    simp [enviarWsaa]
  · intro ahora amb cmsB64 servicio est status body h
    simp only [enviarWsaa]
    rw [if_neg h]

/-- Witness for C3 (amended): with a 500 response the raw body lands in
`LoginTicketResponse.xml`; with a 200 response the same body is handed to
`_procesar_respuesta_wsaa`. -/
theorem C3_cuerpo500_witness :
    (enviarWsaa (.respuesta 500 .malformed) 0 .testing "b64" "wslsp"
        estadoInicial).2.archivos.loginResponse = some .malformed ∧
    enviarWsaa (.respuesta 200 .malformed) 0 .testing "b64" "wslsp" estadoInicial =
      procesarRespuestaWsaa .malformed "wslsp" .testing 0
        { estadoInicial with
            archivos := { estadoInicial.archivos with
              soapRequest := some (soapEnvelope "b64")
              loginResponse := some SoapBody.malformed }
            llamadasTransporte := estadoInicial.llamadasTransporte + 1 } :=
  ⟨C3_cuerpo500_preservado.1 0 .testing "b64" "wslsp" estadoInicial 500 .malformed,
   C3_cuerpo500_preservado.2.2 0 .testing "b64" "wslsp" estadoInicial 200 .malformed
     (by norm_num)⟩

/-! ## C4: the plaintext TRA file across the signing step -/

/-- Counterexample to C4 as stated: when the openssl subprocess fails, the
plaintext `LoginTicketRequest.xml` written at the start of `firmar_tra` is
still on disk after the step raises — the cleanup at lines 458-459 sits on
the success path only, so the artifact is not removed on all paths. -/
theorem C4_artefacto_counterexample :
    (firmarTra (.procesoFalla "clave invalida") "<loginTicketRequest/>"
        estadoInicial).1 = .error (.errorCms "clave invalida") ∧
    (firmarTra (.procesoFalla "clave invalida") "<loginTicketRequest/>"
        estadoInicial).2.archivos.tra = some (xmlDecl ++ "<loginTicketRequest/>") ∧
    some (xmlDecl ++ "<loginTicketRequest/>") ≠ (Option.none : Option String) :=
  ⟨rfl, rfl, by simp⟩

/-- C4 (amended): the plaintext TRA file is removed before `firmar_tra`
returns on the success path, but on every failure path (openssl process
error, openssl missing, or the CMS file not appearing) the step raises with
the plaintext request artifact still on disk. -/
theorem C4_artefacto_tra :
    (∀ (o : OpensslResult) (xml : String) (est : Estado) (cms : String),
        (firmarTra o xml est).1 = .ok cms →
        (firmarTra o xml est).2.archivos.tra = Option.none) ∧
    (∀ (o : OpensslResult) (xml : String) (est : Estado) (e : FlowErr),
        (firmarTra o xml est).1 = .error e →
        (firmarTra o xml est).2.archivos.tra = some (xmlDecl ++ xml)) := by
  constructor <;> intro o xml est x h <;> cases o <;> simp_all [firmarTra]

/-- Witness for C4 (amended): a successful signing removes the TRA file; a
run with openssl missing leaves it on disk. -/
theorem C4_artefacto_witness :
    (firmarTra (.escribeCms "CMSDER") "<loginTicketRequest/>"
        estadoInicial).2.archivos.tra = Option.none ∧
    (firmarTra .noEncontrado "<loginTicketRequest/>"
        estadoInicial).2.archivos.tra = some (xmlDecl ++ "<loginTicketRequest/>") :=
  ⟨C4_artefacto_tra.1 _ _ _ "CMSDER" rfl,
   C4_artefacto_tra.2 _ _ _ .opensslNoDisponible rfl⟩

/-! ## C8: invalid service ids -/

/-- Counterexample to C8 as stated: the acquisition flow invoked with the
two-character id "ab" fails with the `KeyError` raised by the
`self.SERVICIOS[servicio]['nombre']` lookup in the logging preamble (line
505, before the `try` block), not with the `InvalidServiceId` `ValueError` of
the Request Builder — `generar_tra` and its validity checks are never
reached on this path. -/
theorem C8_servicio_counterexample :
    (obtenerTicketAcceso ⟨0, 0, Option.none, .escribeCms "CMS", .timeout⟩ .testing "ab"
        estadoInicial).1 = .error .keyErrorServicio ∧
    FlowErr.keyErrorServicio ≠ FlowErr.servicioInvalido ∧
    "ab".length = 2 :=
  ⟨rfl, by decide, rfl⟩

/-- C8 (amended): for every serviceId absent from the catalog (which
subsumes every id of length outside [3, 32], since all catalog entries have
lengths 5–15), the acquisition flow fails before any signing or network call
— the state, including the signing and transport counters, is returned
untouched — but with the preamble's `KeyError`, not `InvalidServiceId`; the
`InvalidServiceId` rejection is produced by `generar_tra` itself when the
Request Builder is invoked directly. -/
theorem C8_servicio_invalido :
    (∀ (m : Mundo) (amb : Ambiente) (servicio : String) (est : Estado),
        SERVICIOS.lookup servicio = Option.none →
        obtenerTicketAcceso m amb servicio est = (.error .keyErrorServicio, est)) ∧
    (∀ (amb : Ambiente) (dn : Option String) (ahora ahoraMs horas : Int)
        (servicio : String),
        SERVICIOS.lookup servicio = Option.none →
        generarTra amb dn ahora ahoraMs servicio horas = .error .servicioInvalido) := by
  constructor
  · intro m amb servicio est h
    simp [obtenerTicketAcceso, h]
  · intro amb dn ahora ahoraMs horas servicio h
    simp [generarTra, h]

/-- Witness for C8 (amended) at the id "ab" of Scenario D. -/
theorem C8_servicio_witness :
    obtenerTicketAcceso ⟨0, 0, Option.none, .escribeCms "CMS", .timeout⟩ .testing "ab"
        estadoInicial = (.error .keyErrorServicio, estadoInicial) ∧
    generarTra .testing Option.none 0 0 "ab" 12 = .error .servicioInvalido :=
  ⟨C8_servicio_invalido.1 _ .testing "ab" estadoInicial rfl,
   C8_servicio_invalido.2 .testing Option.none 0 0 12 "ab" rfl⟩

/-! ## C5: the ticket cache -/

/-- C5: (1) a successful acquisition unconditionally overwrites the cached
entry for its serviceId (and touches no other key); (2) reading that entry
after the acquisition and before the ticket's expiration — by the
validator's clock — returns the very same ticket (the read is a pure cache
lookup: it takes no transport capability, so no transport is re-invoked);
(3,4) reading when nothing is cached, or when the cached ticket is already
expired, signals the no-valid-ticket failure.  The `get` operation is
modelled from the spec (§4.6): the source declares and writes the cache but
contains no read. -/
theorem C5_cache_tickets :
    (∀ (m : Mundo) (amb : Ambiente) (servicio : String) (est : Estado)
        (tc : TicketCompleto),
        (obtenerTicketAcceso m amb servicio est).1 = .ok tc →
        ∀ k, (obtenerTicketAcceso m amb servicio est).2.cache k =
          if k = servicio then some tc else est.cache k) ∧
    (∀ (m : Mundo) (amb : Ambiente) (servicio : String) (est : Estado)
        (tc : TicketCompleto) (ahora2 : Int),
        (obtenerTicketAcceso m amb servicio est).1 = .ok tc →
        ¬ expiracionLocal tc < ahora2 →
        cacheGet (obtenerTicketAcceso m amb servicio est).2.cache servicio ahora2 =
          .ok tc) ∧
    (∀ (c : String → Option TicketCompleto) (servicio : String) (ahora2 : Int),
        c servicio = Option.none →
        cacheGet c servicio ahora2 = .error .noValidTicket) ∧
    (∀ (c : String → Option TicketCompleto) (servicio : String) (ahora2 : Int)
        (tc : TicketCompleto),
        c servicio = some tc → expiracionLocal tc < ahora2 →
        cacheGet c servicio ahora2 = .error .noValidTicket) := by
  have hover : ∀ (m : Mundo) (amb : Ambiente) (servicio : String) (est : Estado)
      (tc : TicketCompleto),
      (obtenerTicketAcceso m amb servicio est).1 = .ok tc →
      ∀ k, (obtenerTicketAcceso m amb servicio est).2.cache k =
        if k = servicio then some tc else est.cache k := by
    intro m amb servicio est tc h k
    rcases obtener_cache_cases m amb servicio est with ⟨⟨e, he⟩, -⟩ | ⟨tc2, hok, hc⟩
    · rw [h] at he
      exact Except.noConfusion he
    · rw [h] at hok
      injection hok with hh
      subst hh
      exact hc k
  refine ⟨hover, ?_, ?_, ?_⟩
  · intro m amb servicio est tc ahora2 h hexp
    have hent := hover m amb servicio est tc h servicio
    simp only [if_pos rfl] at hent
    unfold cacheGet
    rw [hent]
    simp [hexp]
  · intro c servicio ahora2 hc
    unfold cacheGet
    rw [hc]
  · intro c servicio ahora2 tc hc hlt
    unfold cacheGet
    rw [hc]
    simp [hlt]

/-- Witness for C5 on a concrete successful acquisition (Scenario E shape): a
well-formed response with a valid window yields a ticket cached under
"wslsp"; reading it at a later clock of 1500 (before the expiration of 2000)
returns the same ticket; the fresh empty cache and an expired entry both
signal the no-valid-ticket failure. -/
theorem C5_cache_witness :
    (obtenerTicketAcceso ⟨1000, 5, Option.none, .escribeCms "CMSDER",
        .respuesta 200 (.loginCmsReturn true (.resp ⟨some ⟨some "src", some "dst",
          some "1", some ⟨100, .minus0300⟩, some ⟨2000, .minus0300⟩⟩,
          some ⟨some "tok", some "sg"⟩⟩))⟩
        .testing "wslsp" estadoInicial).2.cache "wslsp" =
      some ⟨⟨"tok", "sg", ⟨2000, .minus0300⟩, ⟨100, .minus0300⟩, "1"⟩, "wslsp",
        "Web Service de Liquidación Sector Pecuario", "testing", 1000⟩ ∧
    cacheGet (obtenerTicketAcceso ⟨1000, 5, Option.none, .escribeCms "CMSDER",
        .respuesta 200 (.loginCmsReturn true (.resp ⟨some ⟨some "src", some "dst",
          some "1", some ⟨100, .minus0300⟩, some ⟨2000, .minus0300⟩⟩,
          some ⟨some "tok", some "sg"⟩⟩))⟩
        .testing "wslsp" estadoInicial).2.cache "wslsp" 1500 =
      .ok ⟨⟨"tok", "sg", ⟨2000, .minus0300⟩, ⟨100, .minus0300⟩, "1"⟩, "wslsp",
        "Web Service de Liquidación Sector Pecuario", "testing", 1000⟩ ∧
    cacheGet estadoInicial.cache "wslsp" 1500 = .error .noValidTicket ∧
    cacheGet (fun k => if k = "wslsp"
        then some ⟨⟨"tok", "sg", ⟨2000, .minus0300⟩, ⟨100, .minus0300⟩, "1"⟩, "wslsp",
          "Web Service de Liquidación Sector Pecuario", "testing", 1000⟩
        else Option.none) "wslsp" 3000 = .error .noValidTicket := by
  refine ⟨?_, ?_, ?_, ?_⟩
  · have := C5_cache_tickets.1 ⟨1000, 5, Option.none, .escribeCms "CMSDER",
        .respuesta 200 (.loginCmsReturn true (.resp ⟨some ⟨some "src", some "dst",
          some "1", some ⟨100, .minus0300⟩, some ⟨2000, .minus0300⟩⟩,
          some ⟨some "tok", some "sg"⟩⟩))⟩
        .testing "wslsp" estadoInicial
        ⟨⟨"tok", "sg", ⟨2000, .minus0300⟩, ⟨100, .minus0300⟩, "1"⟩, "wslsp",
          "Web Service de Liquidación Sector Pecuario", "testing", 1000⟩ rfl "wslsp"
    simpa using this
  · exact C5_cache_tickets.2.1 ⟨1000, 5, Option.none, .escribeCms "CMSDER",
        .respuesta 200 (.loginCmsReturn true (.resp ⟨some ⟨some "src", some "dst",
          some "1", some ⟨100, .minus0300⟩, some ⟨2000, .minus0300⟩⟩,
          some ⟨some "tok", some "sg"⟩⟩))⟩
        .testing "wslsp" estadoInicial
        ⟨⟨"tok", "sg", ⟨2000, .minus0300⟩, ⟨100, .minus0300⟩, "1"⟩, "wslsp",
          "Web Service de Liquidación Sector Pecuario", "testing", 1000⟩ 1500 rfl
        (by decide)
  · exact C5_cache_tickets.2.2.1 estadoInicial.cache "wslsp" 1500 rfl
  · exact C5_cache_tickets.2.2.2 _ "wslsp" 3000
      ⟨⟨"tok", "sg", ⟨2000, .minus0300⟩, ⟨100, .minus0300⟩, "1"⟩, "wslsp",
        "Web Service de Liquidación Sector Pecuario", "testing", 1000⟩ rfl (by decide)

end Afip
